import Mathlib

/-!
Shallow embedding of the Daimy.ai WhatsApp bridge (`Example/n8n-bridge.ts`,
documented in `DEPLOYMENT.md`) and its Supabase auth-state adapter
(`Example/use-supabase-auth-state.ts`).

The embedding mirrors the TypeScript source: string-keyed `Map`s become
association lists, `undefined`/`null` become `Option`, thrown JS errors
become `Except String`, and wall-clock milliseconds become `Int`
(JavaScript number subtraction).  External-library pieces the bridge calls
(`jidNormalizedUser`, `DisconnectReason.loggedOut`,
`proto.Message.AppStateSyncKeyData.fromObject`) are modelled abstractly,
each marked in its doc comment.
-/

namespace Bridge

/-- `type ContactsMode = 'allowlist' | 'denylist'` -/
inductive ContactsMode where
  | allowlist
  | denylist
deriving DecidableEq, Repr

/-- `type GroupDefaultRule = 'disabled' | 'enabled' | 'mentionOnly'` -/
inductive GroupDefaultRule where
  | disabled
  | enabled
  | mentionOnly
deriving DecidableEq, Repr

/-- `type AutomationRule = 'default' | 'enabled' | 'disabled' | 'mentionOnly'` -/
inductive AutomationRule where
  | default
  | enabled
  | disabled
  | mentionOnly
deriving DecidableEq, Repr

/-- `'sameChat' | 'directToSender'` (`reply_send_to` / webhook `sendTo`). -/
inductive SendTo where
  | sameChat
  | directToSender
deriving DecidableEq, Repr

/-- `type AppSettingsRow` (the singleton `app_settings` row, `id = 1`). -/
structure AppSettingsRow where
  ignore_from_me : Bool
  contacts_mode : ContactsMode
  groups_default_rule : GroupDefaultRule
  reply_send_to : SendTo
  reply_prefix : String
deriving DecidableEq, Repr

/-- `'contact' | 'group'` (the `type` column of `entity_rules`). -/
inductive EntityType where
  | contact
  | group
deriving DecidableEq, Repr

/-- `type EntityRuleRow = { jid, type, name, rule }`. -/
structure EntityRuleRow where
  jid : String
  type : EntityType
  name : String
  rule : AutomationRule
deriving DecidableEq, Repr

/-- The two lookup maps of `RuntimeConfig.entityRules`; a JS
`Map<string, EntityRuleRow>` is embedded as an association list with
first-match lookup (`List.lookup`). -/
structure EntityRules where
  contacts : List (String × EntityRuleRow)
  groups : List (String × EntityRuleRow)
deriving DecidableEq, Repr

/-- `type RuntimeConfig = { settings, entityRules }`. -/
structure RuntimeConfig where
  settings : AppSettingsRow
  entityRules : EntityRules
deriving DecidableEq, Repr

/-- `contextInfo` slice of a message content variant: the optional
`mentionedJid` array.  `none` is JS `undefined`/`null`; `some []` is a
present but empty array (which is truthy in JS). -/
structure ContextInfo where
  mentionedJid : Option (List String)
deriving DecidableEq, Repr

/-- `extendedTextMessage`: optional `text` and optional `contextInfo`. -/
structure ExtendedTextMessage where
  text : Option String
  contextInfo : Option ContextInfo
deriving DecidableEq, Repr

/-- `imageMessage` / `videoMessage` / `documentMessage`: optional `caption`
and optional `contextInfo`. -/
structure MediaMessage where
  caption : Option String
  contextInfo : Option ContextInfo
deriving DecidableEq, Repr

/-- The slice of `proto.IMessage` the bridge inspects. -/
structure IMessage where
  conversation : Option String
  extendedTextMessage : Option ExtendedTextMessage
  imageMessage : Option MediaMessage
  videoMessage : Option MediaMessage
  documentMessage : Option MediaMessage
deriving DecidableEq, Repr

/-- The `mentioned` expression of `isMentioningMe`:
`msg.extendedTextMessage?.contextInfo?.mentionedJid || msg.imageMessage?... || ... || []`.
JavaScript `||` takes the first operand that is not `undefined`/`null`
(an empty array is truthy and stops the chain). -/
def mentionedList (m : IMessage) : List String :=
  match (m.extendedTextMessage.bind ExtendedTextMessage.contextInfo).bind ContextInfo.mentionedJid with
  | some l => l
  | none =>
  match (m.imageMessage.bind MediaMessage.contextInfo).bind ContextInfo.mentionedJid with
  | some l => l
  | none =>
  match (m.videoMessage.bind MediaMessage.contextInfo).bind ContextInfo.mentionedJid with
  | some l => l
  | none =>
  match (m.documentMessage.bind MediaMessage.contextInfo).bind ContextInfo.mentionedJid with
  | some l => l
  | none => []

/-- `isMentioningMe(msg, myJid)`.

Modelled from the spec: the bridge normalizes identifiers with the
repository library function `jidNormalizedUser`, whose source is not
included here; the spec only says mention matching compares the
*normalized* self identifier against the *normalized* mention list, so the
normalization is taken as an arbitrary function parameter `norm`.
`if (!msg || !myJid) return false` — `myJid` may be `undefined` or the
falsy empty string. -/
def isMentioningMe (norm : String → String) (msg : Option IMessage) (myJid : Option String) : Bool :=
  match msg, myJid with
  | some m, some my =>
    if my = "" then false
    else ((mentionedList m).map norm).contains (norm my)
  | _, _ => false

/-- Injection of `GroupDefaultRule` into `AutomationRule` (the TS source
casts `overrideRule || base` with `as GroupDefaultRule`). -/
def GroupDefaultRule.toAutomationRule : GroupDefaultRule → AutomationRule
  | .disabled => AutomationRule.disabled
  | .enabled => AutomationRule.enabled
  | .mentionOnly => AutomationRule.mentionOnly

/-- `resolveFinalGroupRule(cfg, chatJid, msg, myJid)`. -/
def resolveFinalGroupRule (norm : String → String) (cfg : RuntimeConfig) (chatJid : String)
    (msg : Option IMessage) (myJid : Option String) : Bool :=
  let override := List.lookup chatJid cfg.entityRules.groups
  let overrideRule : Option AutomationRule :=
    match override with
    | some r => if r.rule ≠ AutomationRule.default then some r.rule else none
    | none => none
  let base := cfg.settings.groups_default_rule
  let finalRule : AutomationRule := overrideRule.getD (GroupDefaultRule.toAutomationRule base)
  match finalRule with
  | AutomationRule.disabled => false
  | AutomationRule.enabled => true
  | AutomationRule.mentionOnly => isMentioningMe norm msg myJid
  | _ => false

/-- `shouldAutomate(cfg, chatJid, isGroup, msg, myJid)`. -/
def shouldAutomate (norm : String → String) (cfg : RuntimeConfig) (chatJid : String)
    (isGroup : Bool) (msg : Option IMessage) (myJid : Option String) : Bool :=
  if isGroup then
    resolveFinalGroupRule norm cfg chatJid msg myJid
  else
    let ruleRow := List.lookup chatJid cfg.entityRules.contacts
    let override : AutomationRule :=
      match ruleRow with
      | some r => if r.rule ≠ AutomationRule.default then r.rule else AutomationRule.default
      | none => AutomationRule.default
    match cfg.settings.contacts_mode with
    | ContactsMode.allowlist => decide (override = AutomationRule.enabled)
    | ContactsMode.denylist => if override = AutomationRule.disabled then false else true

/-- The effective rule of a group chat as the spec words it: the per-chat
override when present and not `default`, else the global
`groups_default_rule`.  (This coincides with the value the source binds to
`finalRule` in `resolveFinalGroupRule`.) -/
def effectiveGroupRule (cfg : RuntimeConfig) (chatJid : String) : AutomationRule :=
  match List.lookup chatJid cfg.entityRules.groups with
  | some r =>
    if r.rule ≠ AutomationRule.default then r.rule
    else GroupDefaultRule.toAutomationRule cfg.settings.groups_default_rule
  | none => GroupDefaultRule.toAutomationRule cfg.settings.groups_default_rule

/-- The group branch of `shouldAutomate` dispatches on the effective rule:
`resolveFinalGroupRule` equals the outcome of `effectiveGroupRule`. -/
theorem resolveFinalGroupRule_eq_effective (norm : String → String) (cfg : RuntimeConfig)
    (chatJid : String) (msg : Option IMessage) (myJid : Option String) :
    resolveFinalGroupRule norm cfg chatJid msg myJid =
      match effectiveGroupRule cfg chatJid with
      | AutomationRule.disabled => false
      | AutomationRule.enabled => true
      | AutomationRule.mentionOnly => isMentioningMe norm msg myJid
      | AutomationRule.default => false := by
  unfold resolveFinalGroupRule effectiveGroupRule
  cases h : List.lookup chatJid cfg.entityRules.groups with
  | none =>
    cases cfg.settings.groups_default_rule <;>
      simp [GroupDefaultRule.toAutomationRule, Option.getD]
  | some r =>
    cases hr : r.rule <;>
      cases cfg.settings.groups_default_rule <;>
        simp [GroupDefaultRule.toAutomationRule, Option.getD, hr]

/-- The effective group rule is never the sentinel `default`. -/
theorem effectiveGroupRule_ne_default (cfg : RuntimeConfig) (chatJid : String) :
    effectiveGroupRule cfg chatJid ≠ AutomationRule.default := by
  unfold effectiveGroupRule
  cases h : List.lookup chatJid cfg.entityRules.groups with
  | none => cases cfg.settings.groups_default_rule <;> simp [GroupDefaultRule.toAutomationRule]
  | some r =>
    cases hr : r.rule <;>
      cases cfg.settings.groups_default_rule <;>
        simp [GroupDefaultRule.toAutomationRule, hr]

/-- C1: for a group message the effective rule is the per-chat override when
present and not `default`, else the global `groups_default_rule`; `disabled`
yields false regardless of message content, `enabled` yields true,
`mentionOnly` yields true iff the normalized self identifier appears in the
message's normalized mention list, and no other effective value arises (the
source's catch-all returns false). -/
theorem C1_group_rule_resolution (norm : String → String) (cfg : RuntimeConfig) (chatJid : String) :
    (effectiveGroupRule cfg chatJid = AutomationRule.disabled →
      ∀ (msg : Option IMessage) (myJid : Option String),
        shouldAutomate norm cfg chatJid true msg myJid = false)
  ∧ (effectiveGroupRule cfg chatJid = AutomationRule.enabled →
      ∀ (msg : Option IMessage) (myJid : Option String),
        shouldAutomate norm cfg chatJid true msg myJid = true)
  ∧ (effectiveGroupRule cfg chatJid = AutomationRule.mentionOnly →
      ∀ (m : IMessage) (my : String), my ≠ "" →
        shouldAutomate norm cfg chatJid true (some m) (some my)
          = ((mentionedList m).map norm).contains (norm my))
  ∧ effectiveGroupRule cfg chatJid ≠ AutomationRule.default := by
  refine ⟨?_, ?_, ?_, effectiveGroupRule_ne_default cfg chatJid⟩
  · intro h msg myJid
    simp only [shouldAutomate, if_true, resolveFinalGroupRule_eq_effective, h]
  · intro h msg myJid
    simp only [shouldAutomate, if_true, resolveFinalGroupRule_eq_effective, h]
  · intro h m my hmy
    simp only [shouldAutomate, if_true, resolveFinalGroupRule_eq_effective, h]
    simp [isMentioningMe, hmy]

/-- A message carrying a mention list in `extendedTextMessage.contextInfo`. -/
def mentionMsg (l : List String) : IMessage :=
  { conversation := none,
    extendedTextMessage := some { text := some "hi", contextInfo := some { mentionedJid := some l } },
    imageMessage := none, videoMessage := none, documentMessage := none }

/-- Concrete config: denylist contacts mode, group base rule `mentionOnly`,
one group overridden to `disabled` and one to `enabled`. -/
def cfgW1 : RuntimeConfig :=
  { settings :=
      { ignore_from_me := true, contacts_mode := ContactsMode.denylist,
        groups_default_rule := GroupDefaultRule.mentionOnly,
        reply_send_to := SendTo.sameChat, reply_prefix := "" },
    entityRules :=
      { contacts := [],
        groups :=
          [("gdis@g.us", ⟨"gdis@g.us", EntityType.group, "Gd", AutomationRule.disabled⟩),
           ("gen@g.us", ⟨"gen@g.us", EntityType.group, "Ge", AutomationRule.enabled⟩)] } }

/-- Witness for C1 at concrete inputs: overridden-disabled group is false,
overridden-enabled group is true, base `mentionOnly` group follows the
mention list. -/
theorem C1_group_rule_resolution_witness :
    shouldAutomate id cfgW1 "gdis@g.us" true none none = false
  ∧ shouldAutomate id cfgW1 "gen@g.us" true none none = true
  ∧ shouldAutomate id cfgW1 "g3@g.us" true (some (mentionMsg ["me@s.whatsapp.net"]))
      (some "me@s.whatsapp.net") = true := by
  refine ⟨(C1_group_rule_resolution id cfgW1 "gdis@g.us").1 (by decide) none none,
          (C1_group_rule_resolution id cfgW1 "gen@g.us").2.1 (by decide) none none, ?_⟩
  have h := (C1_group_rule_resolution id cfgW1 "g3@g.us").2.2.1 (by decide)
    (mentionMsg ["me@s.whatsapp.net"]) "me@s.whatsapp.net" (by decide)
  rw [h]
  decide

/-- C2: in `allowlist` mode a direct chat automates iff its override row's
rule is exactly `enabled`. -/
theorem C2_allowlist_direct (norm : String → String) (cfg : RuntimeConfig) (chatJid : String)
    (msg : Option IMessage) (myJid : Option String)
    (hmode : cfg.settings.contacts_mode = ContactsMode.allowlist) :
    shouldAutomate norm cfg chatJid false msg myJid = true ↔
      (List.lookup chatJid cfg.entityRules.contacts).map EntityRuleRow.rule
        = some AutomationRule.enabled := by
  unfold shouldAutomate
  rw [hmode]
  cases h : List.lookup chatJid cfg.entityRules.contacts with
  | none => simp
  | some r => cases hr : r.rule <;> simp [hr]

/-- C3: in `denylist` mode a direct chat is suppressed iff its override
row's rule is exactly `disabled`. -/
theorem C3_denylist_direct (norm : String → String) (cfg : RuntimeConfig) (chatJid : String)
    (msg : Option IMessage) (myJid : Option String)
    (hmode : cfg.settings.contacts_mode = ContactsMode.denylist) :
    shouldAutomate norm cfg chatJid false msg myJid = false ↔
      (List.lookup chatJid cfg.entityRules.contacts).map EntityRuleRow.rule
        = some AutomationRule.disabled := by
  unfold shouldAutomate
  rw [hmode]
  cases h : List.lookup chatJid cfg.entityRules.contacts with
  | none => simp
  | some r => cases hr : r.rule <;> simp [hr]

/-- Concrete config: allowlist contacts mode with one contact enabled. -/
def cfgW2 : RuntimeConfig :=
  { settings :=
      { ignore_from_me := true, contacts_mode := ContactsMode.allowlist,
        groups_default_rule := GroupDefaultRule.disabled,
        reply_send_to := SendTo.sameChat, reply_prefix := "" },
    entityRules :=
      { contacts := [("a@s.whatsapp.net", ⟨"a@s.whatsapp.net", EntityType.contact, "A", AutomationRule.enabled⟩)],
        groups := [] } }

/-- Witness for C2: the enabled contact automates in allowlist mode. -/
theorem C2_allowlist_direct_witness :
    shouldAutomate id cfgW2 "a@s.whatsapp.net" false none none = true :=
  (C2_allowlist_direct id cfgW2 "a@s.whatsapp.net" none none rfl).mpr (by decide)

/-- Concrete config: denylist contacts mode with one contact disabled. -/
def cfgW3 : RuntimeConfig :=
  { settings :=
      { ignore_from_me := true, contacts_mode := ContactsMode.denylist,
        groups_default_rule := GroupDefaultRule.disabled,
        reply_send_to := SendTo.sameChat, reply_prefix := "" },
    entityRules :=
      { contacts := [("b@s.whatsapp.net", ⟨"b@s.whatsapp.net", EntityType.contact, "B", AutomationRule.disabled⟩)],
        groups := [] } }

/-- Witness for C3: the disabled contact is suppressed in denylist mode. -/
theorem C3_denylist_direct_witness :
    shouldAutomate id cfgW3 "b@s.whatsapp.net" false none none = false :=
  (C3_denylist_direct id cfgW3 "b@s.whatsapp.net" none none rfl).mpr (by decide)

/-- The `connection.update` branch of the `sock.ev.process` handler: how
many pipeline restarts (`setTimeout(() => start()..., 1500)`) one event
schedules.

Modelled from the spec: `DisconnectReason.loggedOut` is a status code of
the repository's transport library, whose source is not included here; the
spec only calls it the terminal "logged out" signal, so it is taken as an
arbitrary parameter `loggedOutCode`.  `statusCode` is
`(lastDisconnect?.error as Boom)?.output?.statusCode`, which may be
`undefined`. -/
def connectionUpdateRestarts (loggedOutCode : Nat) (connection : Option String)
    (statusCode : Option Nat) : Nat :=
  if connection = some "close" then
    if statusCode ≠ some loggedOutCode then 1 else 0
  else 0

/-- C4: a connection-closed event with the logged-out status schedules no
restart; any other disconnect status (including an absent one) schedules
exactly one restart. -/
theorem C4_disconnect_restart_policy (loggedOutCode : Nat) (statusCode : Option Nat) :
    (statusCode = some loggedOutCode →
      connectionUpdateRestarts loggedOutCode (some "close") statusCode = 0)
  ∧ (statusCode ≠ some loggedOutCode →
      connectionUpdateRestarts loggedOutCode (some "close") statusCode = 1) := by
  constructor
  · intro h
    simp [connectionUpdateRestarts, h]
  · intro h
    simp [connectionUpdateRestarts, h]

/-- Witness for C4 at the library's actual logged-out code 401: a 401 close
never restarts, a 428 (connection lost) close restarts once. -/
theorem C4_disconnect_restart_policy_witness :
    connectionUpdateRestarts 401 (some "close") (some 401) = 0
  ∧ connectionUpdateRestarts 401 (some "close") (some 428) = 1 :=
  ⟨(C4_disconnect_restart_policy 401 (some 401)).1 rfl,
   (C4_disconnect_restart_policy 401 (some 428)).2 (by decide)⟩

/-- Pairing-code requests made by one invocation of `start()`.  The guard
flag `pairingRequested` is a variable local to `start` (`let
pairingRequested = false`), so each invocation begins with it false; the
block requests a code when the stored creds are unregistered, a pairing
phone number is configured, and the (freshly reset) flag is unset. -/
def startPairingRequests (registered pairingPhoneConfigured : Bool) : Nat :=
  let pairingRequested := false
  if !registered then
    if pairingPhoneConfigured && !pairingRequested then 1 else 0
  else 0

/-- Total pairing-code requests over a process lifetime: the initial
`start()` plus every restart re-invocation of `start()`, each described by
its `(creds.registered, PAIRING_PHONE_NUMBER configured)` pair at entry. -/
def lifetimePairingRequests (starts : List (Bool × Bool)) : Nat :=
  (starts.map fun s => startPairingRequests s.1 s.2).sum

/-- C5 failing input evaluated on the code: an initial `start()` with
unregistered creds and a configured pairing number, followed by one
restart (transient disconnect before pairing completes), requests two
pairing codes — the local `pairingRequested` flag is re-initialized on
every invocation, so "at most once per process lifetime" fails. -/
theorem C5_pairing_requested_twice :
    lifetimePairingRequests [(false, true), (false, true)] = 2
  ∧ ¬ lifetimePairingRequests [(false, true), (false, true)] ≤ 1 := by
  constructor
  · decide
  · decide

/-- The module-level `runtimeCache` object `{ cfg, loadedAt, ttlMs }`. -/
structure RuntimeCacheState where
  cfg : Option RuntimeConfig
  loadedAt : Int
  ttlMs : Int
deriving DecidableEq, Repr

/-- `runtimeCache`'s initial value: `{ cfg: null, loadedAt: 0, ttlMs: 4000 }`. -/
def initialRuntimeCache : RuntimeCacheState :=
  { cfg := none, loadedAt := 0, ttlMs := 4000 }

/-- Outcome of one `getRuntimeConfig()` call: the returned config, the
cache state afterwards, and whether `loadRuntimeConfig()` was invoked. -/
structure GetConfigResult where
  cfg : RuntimeConfig
  cache : RuntimeCacheState
  didLoad : Bool
deriving DecidableEq, Repr

/-- `getRuntimeConfig()`: serve the cached config while
`now - loadedAt < ttlMs`, else load fresh (`loaded` is what
`loadRuntimeConfig()` would return now) and overwrite `cfg`/`loadedAt`. -/
def getRuntimeConfig (cache : RuntimeCacheState) (now : Int) (loaded : RuntimeConfig) :
    GetConfigResult :=
  match cache.cfg with
  | some c =>
    if now - cache.loadedAt < cache.ttlMs then ⟨c, cache, false⟩
    else ⟨loaded, ⟨some loaded, now, cache.ttlMs⟩, true⟩
  | none => ⟨loaded, ⟨some loaded, now, cache.ttlMs⟩, true⟩

/-- A second concrete config, distinct from `cfgW1`, standing for the value
a fresh datastore load returns. -/
def cfgW4 : RuntimeConfig :=
  { settings :=
      { ignore_from_me := false, contacts_mode := ContactsMode.denylist,
        groups_default_rule := GroupDefaultRule.enabled,
        reply_send_to := SendTo.directToSender, reply_prefix := "[bot] " },
    entityRules := { contacts := [], groups := [] } }

/-- C6 counterexample: calls at t=0 (cold load), t=3999 (cache hit) and
t=5000.  The second and third calls are 1001 ms < TTL apart with no
intervening writes, yet the third call performs a fresh load, because the
TTL is measured from `loadedAt` (t=0), not from the previous call. -/
theorem C6_counterexample :
    ((5000 : Int) - 3999 < 4000)
  ∧ (getRuntimeConfig initialRuntimeCache 0 cfgW1).didLoad = true
  ∧ (getRuntimeConfig (getRuntimeConfig initialRuntimeCache 0 cfgW1).cache 3999 cfgW1).didLoad
      = false
  ∧ (getRuntimeConfig
      (getRuntimeConfig (getRuntimeConfig initialRuntimeCache 0 cfgW1).cache 3999 cfgW1).cache
      5000 cfgW1).didLoad = true := by
  refine ⟨by decide, rfl, ?_, ?_⟩ <;> decide

/-- C6 amended: a `getRuntimeConfig()` call made less than `ttlMs` after
the cached snapshot's `loadedAt` returns the identical cached snapshot
without loading; a call once `ttlMs` has elapsed since `loadedAt` (or with
an empty cache) performs a fresh load and replaces the snapshot and
timestamp. -/
theorem C6_cache_ttl (cache : RuntimeCacheState) (now : Int) (loaded c : RuntimeConfig) :
    (cache.cfg = some c → now - cache.loadedAt < cache.ttlMs →
      getRuntimeConfig cache now loaded = ⟨c, cache, false⟩)
  ∧ (cache.ttlMs ≤ now - cache.loadedAt →
      getRuntimeConfig cache now loaded = ⟨loaded, ⟨some loaded, now, cache.ttlMs⟩, true⟩) := by
  constructor
  · intro hc hfresh
    simp [getRuntimeConfig, hc, hfresh]
  · intro hstale
    cases hc : cache.cfg with
    | none => simp [getRuntimeConfig, hc]
    | some c0 => simp [getRuntimeConfig, hc, not_lt.mpr hstale]

/-- Witness for C6 amended: a call 100 ms after the load serves the cached
`cfgW1` without loading; a call 4000 ms after the load replaces it with the
freshly loaded `cfgW4`. -/
theorem C6_cache_ttl_witness :
    getRuntimeConfig ⟨some cfgW1, 0, 4000⟩ 100 cfgW4 = ⟨cfgW1, ⟨some cfgW1, 0, 4000⟩, false⟩
  ∧ getRuntimeConfig ⟨some cfgW1, 0, 4000⟩ 4000 cfgW4
      = ⟨cfgW4, ⟨some cfgW4, 4000, 4000⟩, true⟩ :=
  ⟨(C6_cache_ttl ⟨some cfgW1, 0, 4000⟩ 100 cfgW4 cfgW1).1 rfl (by decide),
   (C6_cache_ttl ⟨some cfgW1, 0, 4000⟩ 4000 cfgW4 cfgW1).2 (by decide)⟩

/-- `type N8nWebhookResponse = { replyText?, sendTo?, skipReply? }`. -/
structure N8nWebhookResponse where
  replyText : Option String
  sendTo : Option SendTo
  skipReply : Option Bool
deriving DecidableEq, Repr

/-- The `{}` fallback object: no reply, no destination, no skip. -/
def emptyN8nResponse : N8nWebhookResponse :=
  { replyText := none, sendTo := none, skipReply := none }

/-- The parts of the `fetch` `Response` that `callN8n` consumes: the
status, the body text (`res.text()`, with `''` on a failed read), and the
result of `res.json()` — `none` when the body is not well-formed JSON
(the `.catch(() => ({}))` path). -/
structure HttpResponse where
  status : Nat
  bodyText : String
  bodyJson : Option N8nWebhookResponse
deriving DecidableEq, Repr

/-- `res.ok` per the fetch standard: status in the inclusive range 200–299. -/
def httpOk (status : Nat) : Bool :=
  200 ≤ status && status ≤ 299

/-- JavaScript `"...".slice(0, n)`: the first `n` characters of a string
(the whole string when shorter). -/
def sliceTo (s : String) (n : Nat) : String :=
  String.mk (s.data.take n)

/-- `callN8n(payload)` outcome as a function of the HTTP response: a thrown
`Error` for a non-ok status (message truncated to 800 chars by
`.slice(0, 800)`), otherwise the parsed body (or the empty object when
parsing failed) together with the status. -/
def callN8n (res : HttpResponse) : Except String (N8nWebhookResponse × Nat) :=
  let status := res.status
  if !httpOk status then
    Except.error (sliceTo ("n8n responded " ++ toString status ++ ": " ++ res.bodyText) 800)
  else
    Except.ok (res.bodyJson.getD emptyN8nResponse, status)

/-- C7: a 2xx response whose body is not well-formed JSON yields the empty
successful response object (no replyText, no sendTo, no skipReply) rather
than an error; a non-success status yields an error whose detail is the
status and the response body, truncated to 800 characters. -/
theorem C7_callN8n_leniency (res : HttpResponse) :
    (httpOk res.status = true → res.bodyJson = none →
      callN8n res = Except.ok (emptyN8nResponse, res.status))
  ∧ (httpOk res.status = false →
      callN8n res = Except.error
        (sliceTo ("n8n responded " ++ toString res.status ++ ": " ++ res.bodyText) 800)) := by
  constructor
  · intro hok hjson
    simp [callN8n, hok, hjson]
  · intro hok
    simp [callN8n, hok]

/-- Witness for C7: a 200 with a malformed body degrades to the empty
response; a 500 raises with the status and body in the message. -/
theorem C7_callN8n_leniency_witness :
    callN8n ⟨200, "not json", none⟩ = Except.ok (emptyN8nResponse, 200)
  ∧ callN8n ⟨500, "boom", none⟩ = Except.error "n8n responded 500: boom" := by
  refine ⟨(C7_callN8n_leniency ⟨200, "not json", none⟩).1 rfl rfl, ?_⟩
  have h := (C7_callN8n_leniency ⟨500, "boom", none⟩).2 rfl
  rw [h]
  exact congrArg Except.error (by decide)

/-- `'inbound' | 'outbound'`. -/
inductive Direction where
  | inbound
  | outbound
deriving DecidableEq, Repr

/-- `type MessageLogInsert` (row shape written to `message_logs`). -/
structure MessageLogInsert where
  direction : Direction
  chat_jid : String
  sender_jid : Option String
  message_id : Option String
  text : Option String
  automated : Bool
  n8n_request_id : Option String
  n8n_status : Option Nat
  n8n_error : Option String
deriving DecidableEq, Repr

/-- Result shape of `supabase.from('message_logs').insert(row)`: the
supabase client resolves with an `error` field rather than throwing. -/
structure SupabaseInsertResult where
  error : Option String
deriving DecidableEq, Repr

/-- `insertLog(row)`: checks the returned `error`, logs a warning and
drops it.  The returned list is the warnings emitted (message field paired
with the fixed warning text); the function never produces `Except.error`. -/
def insertLog (row : MessageLogInsert) (res : SupabaseInsertResult) :
    Except String (List (String × String)) :=
  match res.error with
  | some e => Except.ok [(e, "Failed to insert message log")]
  | none => Except.ok []

/-- C8: for every log row and every datastore outcome, `insertLog` never
raises; a persistence failure is converted to a warning naming the
datastore error, and a success emits nothing. -/
theorem C8_insertLog_never_fails (row : MessageLogInsert) (res : SupabaseInsertResult) :
    (insertLog row res).isOk = true
  ∧ (∀ e, res.error = some e →
      insertLog row res = Except.ok [(e, "Failed to insert message log")])
  ∧ (res.error = none → insertLog row res = Except.ok []) := by
  refine ⟨?_, ?_, ?_⟩ <;>
    cases h : res.error <;> simp [insertLog, h, Except.isOk, Except.toBool]

/-- A concrete inbound log row. -/
def sampleLogRow : MessageLogInsert :=
  { direction := Direction.inbound, chat_jid := "a@s.whatsapp.net", sender_jid := none,
    message_id := none, text := some "hello", automated := false,
    n8n_request_id := none, n8n_status := none, n8n_error := none }

/-- Witness for C8: a simulated datastore failure is swallowed as a
warning, and a success logs nothing. -/
theorem C8_insertLog_never_fails_witness :
    (insertLog sampleLogRow ⟨some "db down"⟩).isOk = true
  ∧ insertLog sampleLogRow ⟨some "db down"⟩
      = Except.ok [("db down", "Failed to insert message log")]
  ∧ insertLog sampleLogRow ⟨none⟩ = Except.ok [] :=
  ⟨(C8_insertLog_never_fails sampleLogRow ⟨some "db down"⟩).1,
   (C8_insertLog_never_fails sampleLogRow ⟨some "db down"⟩).2.1 "db down" rfl,
   (C8_insertLog_never_fails sampleLogRow ⟨none⟩).2.2 rfl⟩

/-- An opaque serialized blob as stored in the `data` jsonb column of
`wa_auth_keys` (the result of `jsonEncode`). -/
inductive StoredVal where
  | blob (s : String)
deriving DecidableEq, Repr

/-- A retrieved key value: either the raw `jsonDecode` result, or the
result of the secondary structured decode applied to app-state-sync-key
values. -/
inductive DecodedVal where
  | decoded (s : String)
  | appStateKeyData (s : String)
deriving DecidableEq, Repr

/-- `jsonDecode(data)`: raw deserialization of a stored blob. -/
def jsonDecode : StoredVal → DecodedVal
  | StoredVal.blob s => DecodedVal.decoded s

/-- Modelled from the spec: `proto.Message.AppStateSyncKeyData.fromObject`
(repository protobuf code, not included under the provided sources)
performs the secondary structured decode of an `app-state-sync-key`
value after raw deserialization. -/
def appStateSyncKeyFromObject : DecodedVal → DecodedVal
  | DecodedVal.decoded s => DecodedVal.appStateKeyData s
  | DecodedVal.appStateKeyData s => DecodedVal.appStateKeyData s

/-- `type KeyRow = { instance_id, type, id, data }`. -/
structure KeyRow where
  instance_id : String
  type : String
  id : String
  data : Option StoredVal
deriving DecidableEq, Repr

/-- `state.keys.get(type, ids)` over a `wa_auth_keys` table: the supabase
query filters by instance, category and membership of `id` in `ids`; the
loop then maps every requested id to its decoded value or `null`, with the
secondary decode applied only to the `app-state-sync-key` category. -/
def getKeys (table : List KeyRow) (instanceId ty : String) (ids : List String) :
    List (String × Option DecodedVal) :=
  if ids.isEmpty then []
  else
    let rows := table.filter fun r =>
      r.instance_id == instanceId && r.type == ty && ids.contains r.id
    ids.map fun id =>
      let row := rows.find? fun r => r.id == id
      let value : Option DecodedVal := (row.bind KeyRow.data).map jsonDecode
      let value := if ty == "app-state-sync-key" then value.map appStateSyncKeyFromObject
                   else value
      (id, value)

/-- The stored blob for `(instanceId, ty, id)`: the `data` of the first
matching table row, if any. -/
def storedData (table : List KeyRow) (instanceId ty id : String) : Option StoredVal :=
  (table.find? fun r => r.instance_id == instanceId && r.type == ty && r.id == id).bind
    KeyRow.data

/-- `find?` over a `filter` is `find?` with the conjoined predicate. -/
theorem find?_filter_eq {α : Type} (p q : α → Bool) (l : List α) :
    (l.filter p).find? q = l.find? fun a => p a && q a := by
  induction l with
  | nil => rfl
  | cons a t ih =>
    cases hp : p a <;> cases hq : q a <;>
      simp [List.filter_cons, List.find?_cons, hp, hq, ih]

/-- Looking up `id` in the pairing `i ↦ (i, f i)` of a list containing
`id` yields `some (f id)`. -/
theorem lookup_map_pair {β : Type} (f : String → β) (ids : List String) (id : String)
    (h : id ∈ ids) :
    (ids.map fun i => (i, f i)).lookup id = some (f id) := by
  induction ids with
  | nil => cases h
  | cons a t ih =>
    by_cases ha : id = a
    · simp [List.lookup, ha]
    · have ht : id ∈ t := by
        cases h with
        | head => exact absurd rfl ha
        | tail _ h' => exact h'
      have hb : (id == a) = false := by simp [ha]
      simp [List.lookup, hb, ih ht]

/-- The query filter restricted to a requested id coincides with the
direct `(instance, type, id)` row search. -/
theorem getKeys_row_search (table : List KeyRow) (instanceId ty : String) (ids : List String)
    (id : String) (h : id ∈ ids) :
    ((table.filter fun r =>
        r.instance_id == instanceId && r.type == ty && ids.contains r.id).find?
      fun r => r.id == id)
    = table.find? fun r => r.instance_id == instanceId && r.type == ty && r.id == id := by
  rw [find?_filter_eq]
  congr 1
  funext r
  by_cases hid : r.id = id
  · simp [hid, h]
  · have hb : (r.id == id) = false := by simp [hid]
    simp [hb]

/-- C9: `getKeys` returns one entry per requested id, in order; a
requested id with no stored value maps to `null` (present, not omitted);
a requested id with stored blob `v` maps to its decoded value, with the
secondary structured decode applied exactly when the category is
`app-state-sync-key`. -/
theorem C9_getKeys_contract (table : List KeyRow) (instanceId ty : String) (ids : List String) :
    ((getKeys table instanceId ty ids).map Prod.fst = ids)
  ∧ (∀ id, id ∈ ids → storedData table instanceId ty id = none →
      (getKeys table instanceId ty ids).lookup id = some none)
  ∧ (∀ id v, id ∈ ids → storedData table instanceId ty id = some v →
      (getKeys table instanceId ty ids).lookup id
        = some (some (if ty == "app-state-sync-key"
                      then appStateSyncKeyFromObject (jsonDecode v)
                      else jsonDecode v))) := by
  refine ⟨?_, ?_, ?_⟩
  · have hmap : ∀ (l : List String) (g : String → Option DecodedVal),
        List.map Prod.fst (List.map (fun id => (id, g id)) l) = l := by
      intro l g
      induction l with
      | nil => rfl
      | cons a t ih => simp [ih]
    cases ids with
    | nil => rfl
    | cons a t =>
      simp only [getKeys, List.isEmpty_cons, if_neg Bool.false_ne_true]
      exact hmap (a :: t) _
  · intro id hid hnone
    have hne : ids.isEmpty = false := by
      cases ids with
      | nil => cases hid
      | cons a t => rfl
    simp only [getKeys, hne, if_neg Bool.false_ne_true]
    rw [lookup_map_pair _ ids id hid]
    rw [getKeys_row_search table instanceId ty ids id hid]
    unfold storedData at hnone
    rw [hnone]
    cases hcat : (ty == "app-state-sync-key") <;> simp [hcat]
  · intro id v hid hsome
    have hne : ids.isEmpty = false := by
      cases ids with
      | nil => cases hid
      | cons a t => rfl
    simp only [getKeys, hne, if_neg Bool.false_ne_true]
    rw [lookup_map_pair _ ids id hid]
    rw [getKeys_row_search table instanceId ty ids id hid]
    unfold storedData at hsome
    rw [hsome]
    cases hcat : (ty == "app-state-sync-key") <;> simp [hcat]

/-- A concrete `wa_auth_keys` table: one app-state-sync-key row and one
session row for instance `default`. -/
def keyTableW : List KeyRow :=
  [⟨"default", "app-state-sync-key", "k1", some (StoredVal.blob "sk1")⟩,
   ⟨"default", "session", "s1", some (StoredVal.blob "sess")⟩]

/-- Witness for C9: a stored app-state-sync-key id gets the secondary
decode, a missing id maps to `null` rather than being omitted, and a
session id gets only the raw decode. -/
theorem C9_getKeys_contract_witness :
    (getKeys keyTableW "default" "app-state-sync-key" ["k1", "k2"]).lookup "k1"
      = some (some (DecodedVal.appStateKeyData "sk1"))
  ∧ (getKeys keyTableW "default" "app-state-sync-key" ["k1", "k2"]).lookup "k2" = some none
  ∧ (getKeys keyTableW "default" "session" ["s1"]).lookup "s1"
      = some (some (DecodedVal.decoded "sess")) := by
  refine ⟨?_, ?_, ?_⟩
  · have h := (C9_getKeys_contract keyTableW "default" "app-state-sync-key" ["k1", "k2"]).2.2
      "k1" (StoredVal.blob "sk1") (by decide) (by decide)
    rw [h]
    rfl
  · exact (C9_getKeys_contract keyTableW "default" "app-state-sync-key" ["k1", "k2"]).2.1
      "k2" (by decide) (by decide)
  · have h := (C9_getKeys_contract keyTableW "default" "session" ["s1"]).2.2
      "s1" (StoredVal.blob "sess") (by decide) (by decide)
    rw [h]
    rfl

/-- JavaScript `.trim()`: strip leading and trailing whitespace from a
string (modelled over the character list, whitespace per
`Char.isWhitespace`). -/
def jsTrim (s : String) : String :=
  String.mk (((s.data.dropWhile Char.isWhitespace).reverse.dropWhile Char.isWhitespace).reverse)

/-- An outbound send: `sock.sendMessage(destination, { text: finalText })`. -/
structure ReplyAction where
  destination : String
  text : String
deriving DecidableEq, Repr

/-- The reply-resolution tail of the message loop, from the webhook
response to the outbound send: `none` when nothing is sent (`skipReply`
set, or the trimmed `replyText` empty), else the destination and final
text.  `destination = sendTo === 'directToSender' && senderJid ? senderJid
: chatJid` (an absent or empty `senderJid` is falsy), and
`finalText = reply_prefix + replyText.trim()`. -/
def resolveReply (cfg : RuntimeConfig) (chatJid : String) (senderJid : Option String)
    (resp : N8nWebhookResponse) : Option ReplyAction :=
  if resp.skipReply.getD false then none
  else
    let replyText := jsTrim (resp.replyText.getD "")
    if replyText = "" then none
    else
      let sendTo := resp.sendTo.getD cfg.settings.reply_send_to
      let finalText := AppSettingsRow.reply_prefix cfg.settings ++ replyText
      let destination :=
        if sendTo = SendTo.directToSender then
          match senderJid with
          | some s => if s = "" then chatJid else s
          | none => chatJid
        else chatJid
      some ⟨destination, finalText⟩

/-- C10: whenever a reply is actually sent, a resolved `directToSender`
with no sender identifier falls back to the original chat id, and the text
sent is always the reply prefix concatenated with the trimmed reply
text. -/
theorem C10_reply_resolution (cfg : RuntimeConfig) (chatJid : String) (senderJid : Option String)
    (resp : N8nWebhookResponse) (a : ReplyAction)
    (h : resolveReply cfg chatJid senderJid resp = some a) :
    (resp.sendTo.getD cfg.settings.reply_send_to = SendTo.directToSender → senderJid = none →
      a.destination = chatJid)
  ∧ a.text = AppSettingsRow.reply_prefix cfg.settings ++ jsTrim (resp.replyText.getD "") := by
  unfold resolveReply at h
  cases hskip : resp.skipReply.getD false with
  | true => rw [hskip] at h; simp at h
  | false =>
    rw [hskip] at h
    simp only [Bool.false_eq_true, if_false] at h
    by_cases ht : jsTrim (resp.replyText.getD "") = ""
    · simp [ht] at h
    · rw [if_neg ht] at h
      have ha := Option.some.inj h
      subst ha
      constructor
      · intro hsend hnone
        simp [hsend, hnone]
      · rfl

/-- Witness for C10: with `reply_send_to = directToSender`, no webhook
`sendTo`, no sender id and reply `" hi "`, the send goes to the original
chat with the prefixed trimmed text. -/
theorem C10_reply_resolution_witness :
    (ReplyAction.mk "g@g.us" "[bot] hi").destination = "g@g.us"
  ∧ (ReplyAction.mk "g@g.us" "[bot] hi").text
      = AppSettingsRow.reply_prefix cfgW4.settings ++ jsTrim ((some " hi ").getD "") := by
  have h : resolveReply cfgW4 "g@g.us" none ⟨some " hi ", none, none⟩
      = some ⟨"g@g.us", "[bot] hi"⟩ := by decide
  have hc := C10_reply_resolution cfgW4 "g@g.us" none ⟨some " hi ", none, none⟩
    ⟨"g@g.us", "[bot] hi"⟩ h
  exact ⟨hc.1 rfl rfl, hc.2⟩

end Bridge
